import Mathlib

/-!
Verification of the glance quota / image-data subsystem.

This file gives a shallow embedding of the quota reservation engine
(`glance/common/quota.py`), the quota limit controller
(`glance/api/v2/quotas.py`) and the image data controller
(`glance/api/v2/image_data.py`), and proves properties of that embedding.
Database-level primitives (`glance/db/sqlalchemy/api.py` is not part of the
source window) are modelled from the specification of the QuotaStore
collaborator contract; every such definition is marked in its doc comment.
-/

namespace Glance

/-- The four quota classes, `quota_classes` in `glance/api/v2/quotas.py`. -/
inductive QuotaClass
  | total_images_number
  | total_images_size
  | total_snapshots_number
  | total_snapshots_size
deriving DecidableEq, Repr

open QuotaClass

/-- The list `quota_classes` from `glance/api/v2/quotas.py`. -/
def quotaClasses : List QuotaClass :=
  [total_images_number, total_images_size,
   total_snapshots_number, total_snapshots_size]

/-- Image lifecycle statuses. -/
inductive ImgStatus
  | queued
  | saving
  | uploading
  | active
  | deactivated
  | killed
  | deleted
deriving DecidableEq, Repr

/- ---------------------------------------------------------------------
   Range resolution, `ResponseSerializer.download` in
   `glance/api/v2/image_data.py`.
   --------------------------------------------------------------------- -/

/-- A parsed range value as handed to the serializer by
`request.get_range_from_request`.  `range start stop` mirrors
`webob.byterange.Range`: `stop` is exclusive (the source comment documents
that a request `bytes=0-4` parses to the half-open pair `(0, 5)`), and a
suffix request `bytes=-2` parses to `start = -2`, `stop = none`.
`contentRange` mirrors `webob.byterange.ContentRange`. -/
inductive RangeVal
  | range (start : Int) (stop : Option Int)
  | contentRange (start stop : Int)
deriving DecidableEq, Repr

/-- Builds the webob `Range` object for a request `bytes=start-endIncl`
(inclusive end, as written on the wire): webob stores the exclusive end. -/
def requestRange (start : Int) (endIncl : Option Int) : RangeVal :=
  RangeVal.range start (endIncl.map (· + 1))

/-- Outcome of `ResponseSerializer.download`: the HTTP status, the stream
offset, the final Content-Length (`chunk_size` after the full-download
reset to `image.size`), and the Content-Range header contents
`(offset, response_end, size)` when the header is emitted. -/
structure RangeOut where
  status : Nat
  offset : Int
  chunkSize : Int
  contentRange : Option (Int × Int × Int)
deriving DecidableEq, Repr

/-- The range-resolution logic of `ResponseSerializer.download`
(`glance/api/v2/image_data.py`), translated line by line:
`offset, chunk_size = 0, None`; for a `Range`, `response_end = size - 1`,
non-negative starts are used as offsets, negative starts resolve the
suffix form when `|start| < size`; an exclusive `stop` strictly below the
size gives `chunk_size = stop - offset` and `response_end = stop - 1`,
otherwise `chunk_size = size - offset`; any present range value sets the
206 status; the Content-Range header is emitted exactly when `chunk_size`
was assigned, and otherwise `chunk_size` is reset to `image.size`. -/
def resolveDownload (rv : Option RangeVal) (size : Int) : RangeOut :=
  match rv with
  | none =>
      { status := 200, offset := 0, chunkSize := size, contentRange := none }
  | some (RangeVal.range start stop) =>
      let responseEnd : Int := size - 1
      let offset : Int :=
        if 0 ≤ start then start
        else if |start| < size then size + start
        else 0
      let res : Int × Int :=
        match stop with
        | some e =>
            if e < size then (e - offset, e - 1) else (size - offset, responseEnd)
        | none => (size - offset, responseEnd)
      { status := 206, offset := offset, chunkSize := res.1,
        contentRange := some (offset, res.2, size) }
  | some (RangeVal.contentRange start stop) =>
      { status := 206, offset := start, chunkSize := stop - start,
        contentRange := some (start, stop - 1, size) }

/-- The textual Content-Range header `bytes <offset>-<end>/<size>` built by
the serializer, when one is emitted. -/
def contentRangeHeader (out : RangeOut) : Option String :=
  out.contentRange.map (fun t =>
    "bytes " ++ toString t.1 ++ "-" ++ toString t.2.1 ++ "/" ++ toString t.2.2)

/- ---------------------------------------------------------------------
   The quota store and the reservation engine, `glance/common/quota.py`.
   Scope and image identifiers are opaque strings in the source; they are
   embedded as natural numbers.
   --------------------------------------------------------------------- -/

/-- The `image_type` extra property: the source only ever compares it
against the literal `snapshot`. -/
inductive ImageType
  | snapshot
  | other
deriving DecidableEq, Repr

/-- One row of the `reservations` table (migration `pike02`):
`(id, reserved, quota_class, scope, image_id)`; lease timestamps are not
modelled (no claim mentions expiry). -/
structure Reservation where
  id : Nat
  scope : Nat
  quotaClass : QuotaClass
  reserved : Int
  imageId : Nat
deriving DecidableEq, Repr

/-- The durable quota state: explicit per-scope limit rows (`quotas`
table, at most one row per scope and class, stored here as one list per
scope) and the reservation rows, plus a fresh-id counter. -/
structure QuotaStore where
  quotas : List (Nat × List (QuotaClass × Int))
  reservations : List Reservation
  nextId : Nat
deriving DecidableEq, Repr

/-- Modelled from the spec: `api.quotas_get` — the explicit limit rows of
one scope, empty when none exist. -/
def quotasGet (st : QuotaStore) (scope : Nat) : List (QuotaClass × Int) :=
  (st.quotas.lookup scope).getD []

/-- Modelled from the spec: `api.quotas_set` — persist the given limits as
the scope's explicit rows, replacing previous ones. -/
def quotasSet (st : QuotaStore) (scope : Nat) (limits : List (QuotaClass × Int)) :
    QuotaStore :=
  { st with quotas := (scope, limits) :: st.quotas.filter (fun p => p.1 ≠ scope) }

/-- Modelled from the spec: usage of a scope for one class = sum of
`reserved` over the reservations currently attributable to that scope and
class (commit keeps a reservation in place, so present rows are the
usage). -/
def usage (st : QuotaStore) (scope : Nat) (c : QuotaClass) : Int :=
  (st.reservations.filter
    (fun r => r.scope == scope && r.quotaClass == c)).foldl
      (fun a r => a + r.reserved) 0

/-- Modelled from the spec: `api.quota_get_reservartions` — whether any
reservation rows exist for the image. -/
def quotaGetReservationsB (st : QuotaStore) (imageId : Nat) : Bool :=
  st.reservations.any (fun r => r.imageId == imageId)

/-- The single error the reservation store raises,
`exception.ProjectQuotaFull`. -/
inductive QErr
  | projectQuotaFull
deriving DecidableEq, Repr

/-- Modelled from the spec: `api.quota_create_reservations` — atomically
creates one reservation row per applied quota class, rejecting the whole
request with `ProjectQuotaFull` when, for some class, a known limit other
than `-1` would be exceeded by current usage plus the applied amount. -/
def quotaCreateReservations (st : QuotaStore) (imageId scope : Nat)
    (applied limits : List (QuotaClass × Int)) :
    Except QErr (QuotaStore × List Nat) :=
  if applied.any (fun p =>
      match limits.lookup p.1 with
      | some l => l != -1 && usage st scope p.1 + p.2 > l
      | none => false) then
    Except.error QErr.projectQuotaFull
  else
    let rows := (applied.foldl
      (fun (acc : List Reservation × Nat) p =>
        (acc.1 ++ [⟨acc.2, scope, p.1, p.2, imageId⟩], acc.2 + 1))
      ([], st.nextId)).1
    Except.ok
      ({ st with reservations := st.reservations ++ rows,
                 nextId := st.nextId + applied.length },
       rows.map (fun r => r.id))

/-- Modelled from the spec: `api.quota_delete_reservations` — rollback:
deletes the rows with the given ids, freeing capacity. -/
def quotaDeleteReservations (st : QuotaStore) (ids : List Nat) : QuotaStore :=
  { st with reservations := st.reservations.filter (fun r => !ids.contains r.id) }

/-- Modelled from the spec: `api.quota_commit_reservations` — commit keeps
the reservation rows in place (they remain as usage); the store is
unchanged.  The possibility of the underlying store operation failing is
threaded separately as a flag. -/
def quotaCommitReservations (st : QuotaStore) (_ids : List Nat) : QuotaStore :=
  st

/-- Modelled from the spec: `api.quota_clear_reservations` — deletes every
reservation row of one image. -/
def quotaClearReservations (st : QuotaStore) (imageId : Nat) : QuotaStore :=
  { st with reservations := st.reservations.filter (fun r => r.imageId != imageId) }

/-- The state of `QuotaReservationManager.__init__`: the image, the scope
(`owner`) and the `applied_quotas` mapping. -/
structure QuotaManager where
  imageId : Nat
  scope : Nat
  applied : List (QuotaClass × Int)
deriving DecidableEq, Repr

/-- Character-by-character prefix test used to model the Python
`str.startswith` call (the builtin `String.startsWith` does not reduce
in the kernel). -/
def charPrefix : List Char → List Char → Bool
  | [], _ => true
  | _ :: _, [] => false
  | p :: ps, c :: cs => (p == c) && charPrefix ps cs

/-- `s.startswith(pre)` on the string's character data. -/
def pyStartsWith (s pre : String) : Bool :=
  charPrefix pre.data s.data

/-- `QuotaReservationManager.__init__`: always one `total_images_number`
unit; `total_images_size` only under the size condition (truthy size and
url, url not beginning with `http`); for snapshots additionally one
`total_snapshots_number` unit and, under the same size condition,
`total_snapshots_size`. -/
def appliedQuotas (size : Int) (url : Option String) (imageType : Option ImageType) :
    List (QuotaClass × Int) :=
  let sizeCondition : Bool :=
    size != 0 &&
      (match url with
       | some u => u != "" && !(pyStartsWith u ("http"))
       | none => false)
  [(total_images_number, 1)] ++
    (if sizeCondition then [(total_images_size, size)] else []) ++
    (if imageType == some ImageType.snapshot then
        [(total_snapshots_number, 1)] ++
          (if sizeCondition then [(total_snapshots_size, size)] else [])
      else [])

/-- `QuotaReservationManager.__enter__`: read the scope's limits; when
absent, materialize the parent domain's defaults (`defaults`, obtained
externally via `api.quotas_get_defaults`) and persist them; then create
the reservations against those limits.  On a creation error the exception
propagates and `__exit__` never runs; limits materialized before the
failure stay persisted. -/
def managerEnter (m : QuotaManager) (defaults : List (QuotaClass × Int))
    (st : QuotaStore) : QuotaStore × Except QErr (List Nat) :=
  let limits0 := quotasGet st m.scope
  let limits := if limits0.isEmpty then defaults else limits0
  let st1 := if limits0.isEmpty then quotasSet st m.scope defaults else st
  match quotaCreateReservations st1 m.imageId m.scope m.applied limits with
  | Except.error e => (st1, Except.error e)
  | Except.ok p => (p.1, Except.ok p.2)

/-- Errors escaping a `with QuotaReservationManager` block: the begin
rejection, an error of the bracketed operation, or a commit failure. -/
inductive BracketErr (ε : Type)
  | quotaFull
  | fromBody (e : ε)
  | commitError
deriving DecidableEq, Repr

/-- `QuotaReservationManager.__exit__`: on an in-flight exception the
reservations are deleted and the exception propagates; otherwise commit is
attempted, and if commit itself raises the reservations are deleted and
that error propagates. -/
def managerExit {ε : Type} (st : QuotaStore) (ids : List Nat)
    (bodyErr : Option ε) (commitFails : Bool) :
    QuotaStore × Option (BracketErr ε) :=
  match bodyErr with
  | some e => (quotaDeleteReservations st ids, some (BracketErr.fromBody e))
  | none =>
      if commitFails then
        (quotaDeleteReservations st ids, some BracketErr.commitError)
      else (quotaCommitReservations st ids, none)

/-- The full `with QuotaReservationManager(...)` bracket around an
operation `body` that transforms the store and may fail. -/
def managerWith {ε : Type} (m : QuotaManager) (defaults : List (QuotaClass × Int))
    (st0 : QuotaStore) (body : QuotaStore → QuotaStore × Option ε)
    (commitFails : Bool) : QuotaStore × Option (BracketErr ε) :=
  match managerEnter m defaults st0 with
  | (st1, Except.error _) => (st1, some BracketErr.quotaFull)
  | (st1, Except.ok ids) =>
      let r := body st1
      managerExit r.1 ids r.2 commitFails

/-- `release_manager` (`glance/common/quota.py`): a context manager that
yields first and clears the image's reservations only after the body has
returned; an exception thrown at the yield point propagates before the
clearing line runs. -/
def releaseRun {ε : Type} (st0 : QuotaStore) (imageId : Nat)
    (body : QuotaStore → QuotaStore × Option ε) : QuotaStore × Option ε :=
  let r := body st0
  match r.2 with
  | some e => (r.1, some e)
  | none => (quotaClearReservations r.1 imageId, none)

/-- Metadata dictionary produced by `convert_proxy_to_metadata`: size
defaulting to 0, visibility defaulting to private, optional owner
(`none` models an absent or falsy owner), the `image_type` property, the
status, and the primary location's url. -/
structure ImageMeta where
  size : Int
  isPublic : Bool
  owner : Option Nat
  imageType : Option ImageType
  status : ImgStatus
  url : Option String
deriving DecidableEq, Repr

/-- Which manager a `QuotaDriver` classmethod hands back. -/
inductive QuotaAction
  | reserve (m : QuotaManager)
  | release
  | idle
deriving DecidableEq, Repr

/-- `QuotaDriver.update`: a reservation manager when the image is active,
non-public, owned and without reservations; the release manager when it is
active, public, owned and holds reservations; otherwise the noop
manager. -/
def quotaDriverUpdate (st : QuotaStore) (imageId : Nat) (meta : ImageMeta) :
    QuotaAction :=
  let active := meta.status == ImgStatus.active
  let hasRes := quotaGetReservationsB st imageId
  match meta.owner with
  | some ow =>
      if active && !meta.isPublic && !hasRes then
        QuotaAction.reserve ⟨imageId, ow, appliedQuotas meta.size meta.url meta.imageType⟩
      else if active && meta.isPublic && hasRes then QuotaAction.release
      else QuotaAction.idle
  | none => QuotaAction.idle

/-- `QuotaDriver.activate`: a reservation manager when the image is
non-public, the owner (falling back to the request context's tenant)
resolves, and no reservations exist yet; otherwise the noop manager. -/
def quotaDriverActivate (st : QuotaStore) (imageId : Nat) (meta : ImageMeta)
    (ctxTenant : Option Nat) : QuotaAction :=
  let hasRes := quotaGetReservationsB st imageId
  match meta.owner.orElse (fun _ => ctxTenant) with
  | some ow =>
      if !meta.isPublic && !hasRes then
        QuotaAction.reserve ⟨imageId, ow, appliedQuotas meta.size meta.url meta.imageType⟩
      else QuotaAction.idle
  | none => QuotaAction.idle

/-- `QuotaDriver.release`: always the release manager. -/
def quotaDriverRelease : QuotaAction :=
  QuotaAction.release

/-- Outcome of the deactivated-status check in
`ImageDataController.download`. -/
inductive DownloadOutcome
  | ok
  | forbidden
deriving DecidableEq, Repr

/-- `ImageDataController.download` (`glance/api/v2/image_data.py`): a
deactivated image requested by a non-admin context raises `Forbidden`
(surfacing as HTTP 403); otherwise the image is returned. -/
def downloadImage (status : ImgStatus) (isAdmin : Bool) : DownloadOutcome :=
  if status == ImgStatus.deactivated && !isAdmin then DownloadOutcome.forbidden
  else DownloadOutcome.ok

/-- Concrete bracket instance used by the C1 witness: an image of size 0
owned by scope 7 reserved against a fresh store with unrestricted
defaults. -/
def bracketDemoManager : QuotaManager :=
  ⟨1, 7, appliedQuotas 0 none none⟩

def bracketDemoDefaults : List (QuotaClass × Int) :=
  [(total_images_number, -1), (total_images_size, -1),
   (total_snapshots_number, -1), (total_snapshots_size, -1)]

def bracketDemoStore0 : QuotaStore :=
  ⟨[], [], 0⟩

def bracketDemoStore1 : QuotaStore :=
  ⟨[(7, bracketDemoDefaults)], [⟨0, 7, total_images_number, 1, 1⟩], 1⟩

/-- Store and metadata used by the C9 witness: image 1 is active, public,
owned by scope 7 and holds a reservation. -/
def releaseDemoStore : QuotaStore :=
  ⟨[], [⟨0, 7, total_images_number, 1, 1⟩, ⟨1, 7, total_images_number, 1, 2⟩], 2⟩

def releaseDemoMeta : ImageMeta :=
  ⟨5, true, some 7, none, ImgStatus.active, none⟩

/- ---------------------------------------------------------------------
   `QuotaController.set_quotas`, `glance/api/v2/quotas.py`.
   A validated request carries exactly the four known classes
   (`_check_all_classes_present`), so a request is a total map; a scope's
   stored explicit rows are written all four at a time by `quotas_set`,
   so they are an optional total map.
   --------------------------------------------------------------------- -/

/-- The `max_limit` / `min_limit` dictionaries computed by step 1 of
`set_quotas`. -/
structure Bounds where
  maxL : QuotaClass → Int
  minL : QuotaClass → Int

/-- A domain's effective limits as `get_quotas` derives them: the explicit
rows when present, else the unrestricted default `-1` per class. -/
def domainEffectiveLimit (domainQuotas : Option (QuotaClass → Int))
    (c : QuotaClass) : Int :=
  match domainQuotas with
  | some q => q c
  | none => -1

/-- Step 1 of `set_quotas` for a project scope: `max_limit` starts at `-1`
and is overwritten by the parent domain's explicit rows; `min_limit`
starts at `0` and is overwritten by the project's usage (a class with no
usage rows stays at `0`, which is its usage). -/
def projectBounds (domainQuotas : Option (QuotaClass → Int))
    (usageF : QuotaClass → Int) : Bounds :=
  { maxL := domainEffectiveLimit domainQuotas
  , minL := usageF }

/-- A child project as `set_quotas` sees it for a domain scope: its
explicit quota rows (if any) and its usage per class (0 when absent). -/
structure ChildProject where
  quotas : Option (QuotaClass → Int)
  usageF : QuotaClass → Int

/-- The first pass over `child_quotas`: per class, raise `min_limit`
(starting at 0) to any larger explicit child limit. -/
def domainChildLimitMin (children : List ChildProject) (c : QuotaClass) : Int :=
  children.foldl (fun acc ch =>
    match ch.quotas with
    | some q => if acc < q c then q c else acc
    | none => acc) 0

/-- `total_usages_by_classes`: the SUM over all child projects of their
usage for the class. -/
def domainChildUsageTotal (children : List ChildProject) (c : QuotaClass) : Int :=
  children.foldl (fun acc ch => acc + ch.usageF c) 0

/-- Step 1 of `set_quotas` for a domain scope: `max_limit` stays at `-1`
for every class; `min_limit` is the child-limit pass raised to the summed
child usage when the latter is larger. -/
def domainBounds (children : List ChildProject) : Bounds :=
  { maxL := fun _ => -1
  , minL := fun c =>
      let m := domainChildLimitMin children c
      let t := domainChildUsageTotal children c
      if m < t then t else m }

/-- Step 2 of `set_quotas`: the request is rejected when for some class
`lmax != -1 and limit > lmax or limit != -1 and limit < lmin`. -/
def setQuotasValidate (b : Bounds) (req : QuotaClass → Int) : Bool :=
  quotaClasses.all fun c =>
    !((b.maxL c != -1 && decide (b.maxL c < req c)) ||
      (req c != -1 && decide (req c < b.minL c)))

/-- Steps 2 and 3 of `set_quotas`: on successful validation the request is
persisted as the scope's explicit rows; on rejection `HTTPBadRequest` is
raised before `quotas_set`, leaving the stored rows unchanged.  Returns
the stored rows afterwards and whether the request was applied. -/
def setQuotasApply (stored : Option (QuotaClass → Int)) (b : Bounds)
    (req : QuotaClass → Int) : Option (QuotaClass → Int) × Bool :=
  if setQuotasValidate b req then (some req, true) else (stored, false)

/-- The lower bound for a domain scope as the claim words it: the maximum,
over all child projects, of the child's explicit limit for the class and
the child's usage for the class. -/
def specDomainMinBound (children : List ChildProject) (c : QuotaClass) : Int :=
  children.foldl (fun acc ch =>
    let withUsage := max acc (ch.usageF c)
    match ch.quotas with
    | some q => max withUsage (q c)
    | none => withUsage) 0

/-- A child project with no explicit rows and a usage of 3 in
`total_images_number`, used to refute C5's per-child-maximum lower
bound. -/
def c5Child : ChildProject :=
  ⟨none, fun c => match c with
    | total_images_number => 3
    | _ => 0⟩

/-- A domain request of 4 for `total_images_number` and `-1` elsewhere. -/
def c5Req : QuotaClass → Int :=
  fun c => match c with
    | total_images_number => 4
    | _ => -1

/- ---------------------------------------------------------------------
   `ImageDataController.upload`, `glance/api/v2/image_data.py`.
   The paths that the claims exercise are modelled as a small-step trace:
   the queued→saving save, `image.set_data` (bytes reach the backend,
   possibly failing signature verification), the `QuotaDriver.activate`
   bracket around the saving→active save, and the compensation handlers
   (`ProjectQuotaFull` → delete bytes + restore to queued;
   `SignatureVerificationError` → `self._delete` marks the image killed;
   a commit failure → `__exit__` rollback + the generic handler's
   restore).  The trust-refresh retry, staging, and the remaining store
   error handlers are off every claim's path and are not modelled.
   --------------------------------------------------------------------- -/

/-- Labels for the externally visible steps of one upload. -/
inductive Step
  | saveSaving      -- image_repo.save(image, from_state='queued')
  | setData         -- image.set_data(data, size)
  | reserveCreated  -- quota_create_reservations succeeded in __enter__
  | reserveRejected -- quota_create_reservations raised ProjectQuotaFull
  | saveActive      -- image_repo.save(image, from_state='saving')
  | commitRes       -- quota_commit_reservations succeeded in __exit__
  | commitRollback  -- commit raised: reservations deleted in __exit__
  | deleteBytes     -- store_utils.safe_delete_from_backend
  | restoreQueued   -- self._restore
  | killImage       -- self._delete
deriving DecidableEq, Repr

/-- Observable state along an upload: the quota store, the image's
persisted status, and whether the image's bytes sit in the backend. -/
structure Sys where
  store : QuotaStore
  dbStatus : ImgStatus
  bytesStored : Bool
deriving DecidableEq, Repr

/-- The HTTP-level outcome of an upload on the modelled paths. -/
inductive UploadResult
  | noContent      -- 204
  | httpForbidden  -- 403, the ProjectQuotaFull handler
  | httpBadRequest -- 400, the SignatureVerificationError handler
  | internalError  -- commit failure re-raised by the generic handler
deriving DecidableEq, Repr

structure UploadOut where
  trace : List (Step × Sys)
  final : Sys
  result : UploadResult
deriving DecidableEq, Repr

/-- The externally determined circumstances of one upload: the converted
metadata, the request context's tenant, the parent-domain defaults for
lazy limit materialization, whether `set_data` raises a signature
verification error (and whether bytes had reached the backend by then),
and whether `quota_commit_reservations` fails. -/
structure UploadCase where
  meta : ImageMeta
  ctxTenant : Option Nat
  defaults : List (QuotaClass × Int)
  sigFail : Bool
  sigBytes : Bool
  commitFails : Bool
deriving Repr

/-- One run of `ImageDataController.upload` for image `imageId` starting
from quota store `st0` with the image queued and no bytes stored,
following the source's control flow step by step. -/
def uploadRun (c : UploadCase) (st0 : QuotaStore) (imageId : Nat) : UploadOut :=
  let s1 : Sys := ⟨st0, ImgStatus.saving, false⟩
  let t1 : List (Step × Sys) := [(Step.saveSaving, s1)]
  if c.sigFail then
    let s2 : Sys := ⟨st0, ImgStatus.saving, c.sigBytes⟩
    let s3 : Sys := ⟨st0, ImgStatus.killed, c.sigBytes⟩
    ⟨t1 ++ [(Step.setData, s2), (Step.killImage, s3)], s3,
      UploadResult.httpBadRequest⟩
  else
    let s2 : Sys := ⟨st0, ImgStatus.saving, true⟩
    let t2 := t1 ++ [(Step.setData, s2)]
    match quotaDriverActivate st0 imageId c.meta c.ctxTenant with
    | QuotaAction.reserve m =>
        match managerEnter m c.defaults st0 with
        | (st1, Except.error _) =>
            let s3 : Sys := ⟨st1, ImgStatus.saving, true⟩
            let s4 : Sys := ⟨st1, ImgStatus.saving, false⟩
            let s5 : Sys := ⟨st1, ImgStatus.queued, false⟩
            ⟨t2 ++ [(Step.reserveRejected, s3), (Step.deleteBytes, s4),
                    (Step.restoreQueued, s5)], s5, UploadResult.httpForbidden⟩
        | (st1, Except.ok ids) =>
            let s3 : Sys := ⟨st1, ImgStatus.saving, true⟩
            let s4 : Sys := ⟨st1, ImgStatus.active, true⟩
            if c.commitFails then
              let st2 := quotaDeleteReservations st1 ids
              let s5 : Sys := ⟨st2, ImgStatus.active, true⟩
              let s6 : Sys := ⟨st2, ImgStatus.queued, true⟩
              ⟨t2 ++ [(Step.reserveCreated, s3), (Step.saveActive, s4),
                      (Step.commitRollback, s5), (Step.restoreQueued, s6)],
               s6, UploadResult.internalError⟩
            else
              let st2 := quotaCommitReservations st1 ids
              let s5 : Sys := ⟨st2, ImgStatus.active, true⟩
              ⟨t2 ++ [(Step.reserveCreated, s3), (Step.saveActive, s4),
                      (Step.commitRes, s5)], s5, UploadResult.noContent⟩
    | _ =>
        let s3 : Sys := ⟨st0, ImgStatus.active, true⟩
        ⟨t2 ++ [(Step.saveActive, s3)], s3, UploadResult.noContent⟩

/-- Unrestricted defaults (`-1` per class), the quota-class table's
initial `default_limit` values from migration `pike02`. -/
def unrestrictedDefaults : List (QuotaClass × Int) :=
  [(total_images_number, -1), (total_images_size, -1),
   (total_snapshots_number, -1), (total_snapshots_size, -1)]

/-- A private, owned, size-5 image whose bytes this system stores
(the location url is not an `http` reference). -/
def demoPrivateMeta : ImageMeta :=
  ⟨5, false, some 7, none, ImgStatus.saving, some ("rbd:vol1")⟩

/-- A store with no limits and no reservations. -/
def freshStore : QuotaStore :=
  ⟨[], [], 0⟩

/-- An upload where transfer, reservation and commit all succeed. -/
def happyCase : UploadCase :=
  ⟨demoPrivateMeta, none, unrestrictedDefaults, false, false, false⟩

/-- An upload whose `set_data` raises a signature verification error
after bytes already reached the backend. -/
def sigFailCase : UploadCase :=
  ⟨demoPrivateMeta, none, unrestrictedDefaults, true, true, false⟩

/-- Scope 7 holds an explicit `total_images_size` limit of 4, so the
size-5 upload's reservation is rejected. -/
def c2Limits : List (QuotaClass × Int) :=
  [(total_images_number, -1), (total_images_size, 4),
   (total_snapshots_number, -1), (total_snapshots_size, -1)]

def c2RejectStore : QuotaStore :=
  ⟨[(7, c2Limits)], [], 0⟩

/-- The reservation manager `QuotaDriver.activate` builds for
`demoPrivateMeta`: one image count unit and 5 size units. -/
def c2Manager : QuotaManager :=
  ⟨1, 7, [(total_images_number, 1), (total_images_size, 5)]⟩

theorem mem_quotaClasses (c : QuotaClass) : c ∈ quotaClasses := by
  cases c <;> simp [quotaClasses]

/-- No reservation with an id in `ids` survives
`quota_delete_reservations`. -/
theorem not_mem_ids_of_mem_delete {st : QuotaStore} {ids : List Nat}
    {r : Reservation} (hr : r ∈ (quotaDeleteReservations st ids).reservations) :
    r.id ∉ ids := by
  have h := List.mem_filter.mp hr
  simpa using h.2

/-- No reservation of `imageId` survives `quota_clear_reservations`. -/
theorem not_image_of_mem_clear {st : QuotaStore} {imageId : Nat}
    {r : Reservation} (hr : r ∈ (quotaClearReservations st imageId).reservations) :
    r.imageId ≠ imageId := by
  have h := List.mem_filter.mp hr
  simpa using h.2

/-- Reservations of other images survive `quota_clear_reservations`. -/
theorem mem_clear_of_other {st : QuotaStore} {imageId : Nat}
    {r : Reservation} (hr : r ∈ st.reservations) (hne : r.imageId ≠ imageId) :
    r ∈ (quotaClearReservations st imageId).reservations := by
  exact List.mem_filter.mpr ⟨hr, by simpa using hne⟩

/-- C7: Range resolution: with total size 10, request `bytes=0-4` resolves
to offset 0, length 5, response end 4 and header `bytes 0-4/10`; request
`bytes=-2` resolves to offset 8, length 2; and in general for a
non-negative start with inclusive end `e`, if `e < size` the result is
offset `start`, length `e - start + 1`, response end `e`, otherwise
length `size - start` and response end `size - 1`. -/
theorem range_resolution_characterization (start e size : Int) (hs : 0 ≤ start) :
    (resolveDownload (some (requestRange 0 (some 4))) 10 =
      { status := 206, offset := 0, chunkSize := 5, contentRange := some (0, 4, 10) } ∧
     contentRangeHeader (resolveDownload (some (requestRange 0 (some 4))) 10) =
      some ("bytes 0-4/10") ∧
     (resolveDownload (some (RangeVal.range (-2) none)) 10).offset = 8 ∧
     (resolveDownload (some (RangeVal.range (-2) none)) 10).chunkSize = 2) ∧
    (e < size →
      resolveDownload (some (requestRange start (some e))) size =
        { status := 206, offset := start, chunkSize := e - start + 1,
          contentRange := some (start, e, size) }) ∧
    (size ≤ e →
      resolveDownload (some (requestRange start (some e))) size =
        { status := 206, offset := start, chunkSize := size - start,
          contentRange := some (start, size - 1, size) }) := by
  refine ⟨by decide, ?_, ?_⟩
  · intro hlt
    simp only [resolveDownload, requestRange, Option.map_some', if_pos hs]
    split_ifs with h <;>
      · simp only [RangeOut.mk.injEq, Option.some.injEq, Prod.mk.injEq, true_and, and_true]
        omega
  · intro hge
    simp only [resolveDownload, requestRange, Option.map_some', if_pos hs]
    rw [if_neg (by omega : ¬ e + 1 < size)]

theorem range_resolution_characterization_witness :
    (0 : Int) ≤ 0 ∧
    ((resolveDownload (some (requestRange 0 (some 4))) 10 =
      { status := 206, offset := 0, chunkSize := 5, contentRange := some (0, 4, 10) } ∧
     contentRangeHeader (resolveDownload (some (requestRange 0 (some 4))) 10) =
      some ("bytes 0-4/10") ∧
     (resolveDownload (some (RangeVal.range (-2) none)) 10).offset = 8 ∧
     (resolveDownload (some (RangeVal.range (-2) none)) 10).chunkSize = 2) ∧
    ((4 : Int) < 10 →
      resolveDownload (some (requestRange 0 (some 4))) 10 =
        { status := 206, offset := 0, chunkSize := 4 - 0 + 1,
          contentRange := some (0, 4, 10) }) ∧
    ((10 : Int) ≤ 4 →
      resolveDownload (some (requestRange 0 (some 4))) 10 =
        { status := 206, offset := 0, chunkSize := 10 - 0,
          contentRange := some (0, 10 - 1, 10) })) :=
  ⟨by decide, range_resolution_characterization 0 4 10 (by decide)⟩

/-- C8 counterexample: the suffix request `bytes=-15` against size 10 is
resolved with offset 0 and the full 10 bytes (a full-content response),
yet the code yields status 206 with a Content-Range header
`bytes 0-9/10`, refuting the claim that every full-content response
carries a 200-equivalent status with no Content-Range header. -/
theorem suffix_overflow_counterexample :
    resolveDownload (some (RangeVal.range (-15) none)) 10 =
      { status := 206, offset := 0, chunkSize := 10,
        contentRange := some (0, 9, 10) } ∧
    (resolveDownload (some (RangeVal.range (-15) none)) 10).offset = 0 ∧
    (resolveDownload (some (RangeVal.range (-15) none)) 10).chunkSize = 10 ∧
    (resolveDownload (some (RangeVal.range (-15) none)) 10).status ≠ 200 ∧
    (resolveDownload (some (RangeVal.range (-15) none)) 10).contentRange ≠ none := by
  decide

/-- C8 amended: a suffix range whose absolute start value is at least the
size keeps offset 0 and returns the full `size` bytes, but still carries
a 206-equivalent status with a Content-Range header
`bytes 0-(size-1)/size`; a 200-equivalent status, and equally the absence
of a Content-Range header, occurs exactly when no range value is present
in the request. -/
theorem suffix_overflow_behavior (start size : Int) (rv : Option RangeVal)
    (hneg : start < 0) (hbig : size ≤ -start) :
    resolveDownload (some (RangeVal.range start none)) size =
      { status := 206, offset := 0, chunkSize := size,
        contentRange := some (0, size - 1, size) } ∧
    ((resolveDownload rv size).status = 200 ↔ rv = none) ∧
    ((resolveDownload rv size).contentRange = none ↔ rv = none) := by
  refine ⟨?_, ?_, ?_⟩
  · simp only [resolveDownload]
    rw [if_neg (by omega), if_neg (by rw [abs_of_neg hneg]; omega)]
    simp only [RangeOut.mk.injEq, Option.some.injEq, Prod.mk.injEq, true_and, and_true]
    omega
  · cases rv with
    | none => simp [resolveDownload]
    | some v => cases v with
      | range a b => simp [resolveDownload]
      | contentRange a b => simp [resolveDownload]
  · cases rv with
    | none => simp [resolveDownload]
    | some v => cases v with
      | range a b => simp [resolveDownload]
      | contentRange a b => simp [resolveDownload]

theorem suffix_overflow_behavior_witness :
    ((-15 : Int) < 0 ∧ (10 : Int) ≤ -(-15)) ∧
    (resolveDownload (some (RangeVal.range (-15) none)) 10 =
      { status := 206, offset := 0, chunkSize := 10,
        contentRange := some (0, 10 - 1, 10) } ∧
    ((resolveDownload none 10).status = 200 ↔ (none : Option RangeVal) = none) ∧
    ((resolveDownload none 10).contentRange = none ↔ (none : Option RangeVal) = none)) :=
  ⟨⟨by decide, by decide⟩,
   suffix_overflow_behavior (-15) 10 none (by decide) (by decide)⟩

/-- C1: the reservation bracket contract: when begin succeeded, (a) an
error of the bracketed operation triggers rollback (no reservation created
at begin survives) and the error propagates; (b) on success with a
succeeding commit the bracket returns the operation's result without
error; (c) when commit itself fails, rollback runs and the commit error
propagates. -/
theorem quota_bracket_contract {ε : Type} (m : QuotaManager)
    (defaults : List (QuotaClass × Int)) (st0 st1 : QuotaStore) (ids : List Nat)
    (body : QuotaStore → QuotaStore × Option ε) (commitFails : Bool)
    (henter : managerEnter m defaults st0 = (st1, Except.ok ids)) :
    (∀ st2 e, body st1 = (st2, some e) →
       managerWith m defaults st0 body commitFails =
         (quotaDeleteReservations st2 ids, some (BracketErr.fromBody e)) ∧
       ∀ r ∈ (quotaDeleteReservations st2 ids).reservations, r.id ∉ ids) ∧
    (∀ st2, body st1 = (st2, none) → commitFails = false →
       managerWith m defaults st0 body commitFails = (st2, none)) ∧
    (∀ st2, body st1 = (st2, none) → commitFails = true →
       managerWith m defaults st0 body commitFails =
         (quotaDeleteReservations st2 ids, some BracketErr.commitError) ∧
       ∀ r ∈ (quotaDeleteReservations st2 ids).reservations, r.id ∉ ids) := by
  refine ⟨?_, ?_, ?_⟩
  · intro st2 e hb
    refine ⟨?_, fun r hr => not_mem_ids_of_mem_delete hr⟩
    simp [managerWith, henter, hb, managerExit]
  · intro st2 hb hcf
    subst hcf
    simp [managerWith, henter, hb, managerExit, quotaCommitReservations]
  · intro st2 hb hcf
    subst hcf
    refine ⟨?_, fun r hr => not_mem_ids_of_mem_delete hr⟩
    simp [managerWith, henter, hb, managerExit]

theorem quota_bracket_contract_witness :
    managerEnter bracketDemoManager bracketDemoDefaults bracketDemoStore0 =
      (bracketDemoStore1, Except.ok [0]) ∧
    (managerWith bracketDemoManager bracketDemoDefaults bracketDemoStore0
        (fun st => (st, some 3)) false =
      (quotaDeleteReservations bracketDemoStore1 [0],
        some (BracketErr.fromBody 3)) ∧
     ∀ r ∈ (quotaDeleteReservations bracketDemoStore1 [0]).reservations,
       r.id ∉ [0]) :=
  ⟨by rfl,
   (quota_bracket_contract bracketDemoManager bracketDemoDefaults
      bracketDemoStore0 bracketDemoStore1 [0] (fun st => (st, some 3)) false
      (by rfl)).1 bracketDemoStore1 3 rfl⟩

/-- C9: the release path (returned by `QuotaDriver.release`, and by
`QuotaDriver.update` for an active public owned image that holds a
reservation) clears the image's reservations only after the wrapped
operation returned without raising; if the wrapped operation raises, the
manager leaves the store exactly as the operation left it and propagates
the error; on success exactly the image's reservations are removed. -/
theorem release_path_atomicity {ε : Type} (st0 st1 : QuotaStore)
    (imageId ow : Nat) (meta : ImageMeta)
    (body : QuotaStore → QuotaStore × Option ε)
    (hact : meta.status = ImgStatus.active) (hpub : meta.isPublic = true)
    (hown : meta.owner = some ow)
    (hres : quotaGetReservationsB st0 imageId = true) :
    quotaDriverRelease = QuotaAction.release ∧
    quotaDriverUpdate st0 imageId meta = QuotaAction.release ∧
    (∀ e, body st0 = (st1, some e) →
       releaseRun st0 imageId body = (st1, some e)) ∧
    (body st0 = (st1, none) →
       releaseRun st0 imageId body = (quotaClearReservations st1 imageId, none) ∧
       (∀ r ∈ (releaseRun st0 imageId body).1.reservations, r.imageId ≠ imageId) ∧
       (∀ r ∈ st1.reservations, r.imageId ≠ imageId →
          r ∈ (releaseRun st0 imageId body).1.reservations)) := by
  refine ⟨rfl, ?_, ?_, ?_⟩
  · simp [quotaDriverUpdate, hact, hpub, hown, hres]
  · intro e hb
    simp [releaseRun, hb]
  · intro hb
    have hrun : releaseRun st0 imageId body =
        (quotaClearReservations st1 imageId, none) := by
      simp [releaseRun, hb]
    refine ⟨hrun, ?_, ?_⟩
    · intro r hr
      rw [hrun] at hr
      exact not_image_of_mem_clear hr
    · intro r hr hne
      rw [hrun]
      exact mem_clear_of_other hr hne

theorem release_path_atomicity_witness :
    (releaseDemoMeta.status = ImgStatus.active ∧
     releaseDemoMeta.isPublic = true ∧
     releaseDemoMeta.owner = some 7 ∧
     quotaGetReservationsB releaseDemoStore 1 = true) ∧
    quotaDriverUpdate releaseDemoStore 1 releaseDemoMeta = QuotaAction.release :=
  ⟨⟨rfl, rfl, rfl, by decide⟩,
   (release_path_atomicity (ε := Nat) releaseDemoStore releaseDemoStore 1 7
      releaseDemoMeta (fun st => (st, none)) rfl rfl rfl (by decide)).2.1⟩

/-- C10: downloading is rejected as forbidden exactly for a deactivated
image requested by a non-admin context; admins may download deactivated
images, and no other status is subject to the check. -/
theorem download_deactivated_policy :
    ∀ (status : ImgStatus) (isAdmin : Bool),
      downloadImage status isAdmin = DownloadOutcome.forbidden ↔
        (status = ImgStatus.deactivated ∧ isAdmin = false) := by
  intro status isAdmin
  cases status <;> cases isAdmin <;> decide

theorem setQuotasApply_snd (stored : Option (QuotaClass → Int)) (b : Bounds)
    (req : QuotaClass → Int) :
    (setQuotasApply stored b req).2 = setQuotasValidate b req := by
  unfold setQuotasApply
  split <;> simp_all

theorem setQuotasApply_unchanged (stored : Option (QuotaClass → Int)) (b : Bounds)
    (req : QuotaClass → Int) (h : (setQuotasApply stored b req).2 = false) :
    (setQuotasApply stored b req).1 = stored := by
  unfold setQuotasApply at h ⊢
  split at h <;> simp_all

theorem if_lt_eq_max (m t : Int) : (if m < t then t else m) = max m t := by
  rcases lt_or_ge m t with h | h
  · rw [if_pos h, max_eq_right h.le]
  · rw [if_neg (not_lt.mpr h), max_eq_left h]

theorem setQuotasValidate_iff (b : Bounds) (req : QuotaClass → Int) :
    setQuotasValidate b req = true ↔
      ∀ c : QuotaClass,
        ¬((b.maxL c ≠ -1 ∧ b.maxL c < req c) ∨ (req c ≠ -1 ∧ req c < b.minL c)) := by
  unfold setQuotasValidate
  rw [List.all_eq_true]
  constructor
  · intro h c
    have hc := h c (mem_quotaClasses c)
    simp at hc ⊢
    tauto
  · intro h c _
    have hc := h c
    simp at hc ⊢
    tauto

/-- C4: `set_quotas` on a project scope succeeds exactly when, for every
class, the requested value is `-1` or lies between the project's usage
and the parent domain's effective limit (with an effective limit of `-1`
meaning no upper bound); a rejected request leaves the stored limits
unchanged. -/
theorem set_quotas_project_characterization
    (domainQuotas : Option (QuotaClass → Int)) (usageF req : QuotaClass → Int)
    (stored : Option (QuotaClass → Int))
    (hdom : ∀ c, -1 ≤ domainEffectiveLimit domainQuotas c) :
    ((setQuotasApply stored (projectBounds domainQuotas usageF) req).2 = true ↔
      ∀ c : QuotaClass, req c = -1 ∨
        (usageF c ≤ req c ∧
          (domainEffectiveLimit domainQuotas c = -1 ∨
            req c ≤ domainEffectiveLimit domainQuotas c))) ∧
    ((setQuotasApply stored (projectBounds domainQuotas usageF) req).2 = false →
      (setQuotasApply stored (projectBounds domainQuotas usageF) req).1 = stored) := by
  refine ⟨?_, setQuotasApply_unchanged _ _ _⟩
  rw [setQuotasApply_snd, setQuotasValidate_iff]
  constructor
  · intro h c
    have hc := h c
    have he := hdom c
    simp only [projectBounds] at hc
    by_cases hv : req c = -1
    · exact Or.inl hv
    · refine Or.inr ⟨?_, ?_⟩ <;> omega
  · intro h c
    have hc := h c
    have he := hdom c
    simp only [projectBounds]
    rcases hc with hv | ⟨hu, hd⟩
    · intro hcon
      rcases hcon with ⟨hne, hlt⟩ | ⟨hne, hlt⟩ <;> omega
    · intro hcon
      rcases hcon with ⟨hne, hlt⟩ | ⟨hne, hlt⟩ <;> omega

theorem set_quotas_project_characterization_witness :
    (∀ c, -1 ≤ domainEffectiveLimit (some (fun _ => (10 : Int))) c) ∧
    (((setQuotasApply none
        (projectBounds (some (fun _ => (10 : Int))) (fun _ => 2)) (fun _ => 5)).2 = true ↔
      ∀ c : QuotaClass, (fun _ => (5 : Int)) c = -1 ∨
        ((fun _ => (2 : Int)) c ≤ (fun _ => (5 : Int)) c ∧
          (domainEffectiveLimit (some (fun _ => (10 : Int))) c = -1 ∨
            (fun _ => (5 : Int)) c ≤ domainEffectiveLimit (some (fun _ => (10 : Int))) c))) ∧
    (((setQuotasApply none
        (projectBounds (some (fun _ => (10 : Int))) (fun _ => 2)) (fun _ => 5)).2 = false →
      (setQuotasApply none
        (projectBounds (some (fun _ => (10 : Int))) (fun _ => 2)) (fun _ => 5)).1 = none))) :=
  ⟨fun c => by norm_num [domainEffectiveLimit],
   set_quotas_project_characterization (some (fun _ => 10)) (fun _ => 2) (fun _ => 5)
     none (fun c => by norm_num [domainEffectiveLimit])⟩

/-- C5 counterexample: with two child projects, each with usage 3 for
`total_images_number` and no explicit limits, the lower bound enforced by
the code is the summed usage 6 — not the per-child maximum 3 the claim
states — and the request of 4, although at least the claimed bound, is
rejected. -/
theorem set_quotas_domain_min_counterexample :
    (domainBounds [c5Child, c5Child]).minL total_images_number = 6 ∧
    specDomainMinBound [c5Child, c5Child] total_images_number = 3 ∧
    specDomainMinBound [c5Child, c5Child] total_images_number ≤
      c5Req total_images_number ∧
    setQuotasValidate (domainBounds [c5Child, c5Child]) c5Req = false := by
  refine ⟨by decide, by decide, by decide, by decide⟩

/-- C5 amended: for a domain scope the lower bound enforced per class is
the maximum of (a) the largest explicit limit any child project holds for
the class and (b) the SUM over all child projects of their usage for the
class; a request is accepted exactly when every class value is `-1`
(exempt from the lower bound) or at least that bound — no upper bound is
enforced for domains — and a rejected request leaves the stored limits
unchanged. -/
theorem set_quotas_domain_characterization (children : List ChildProject)
    (req : QuotaClass → Int) (stored : Option (QuotaClass → Int)) :
    ((setQuotasApply stored (domainBounds children) req).2 = true ↔
      ∀ c : QuotaClass, req c = -1 ∨
        max (domainChildLimitMin children c) (domainChildUsageTotal children c)
          ≤ req c) ∧
    ((setQuotasApply stored (domainBounds children) req).2 = false →
      (setQuotasApply stored (domainBounds children) req).1 = stored) := by
  refine ⟨?_, setQuotasApply_unchanged _ _ _⟩
  rw [setQuotasApply_snd, setQuotasValidate_iff]
  constructor
  · intro h c
    have hc := h c
    simp only [domainBounds, if_lt_eq_max] at hc
    by_cases hv : req c = -1
    · exact Or.inl hv
    · refine Or.inr ?_
      rcases le_or_lt (max (domainChildLimitMin children c)
        (domainChildUsageTotal children c)) (req c) with hle | hgt
      · exact hle
      · exact absurd (Or.inr ⟨hv, hgt⟩) hc
  · intro h c
    have hc := h c
    simp only [domainBounds, if_lt_eq_max]
    intro hcon
    rcases hcon with ⟨hne, _⟩ | ⟨hne, hlt⟩
    · exact hne rfl
    · rcases hc with hv | hle
      · exact hne hv
      · exact absurd hle (not_le.mpr hlt)

theorem set_quotas_domain_characterization_witness :
    ((setQuotasApply none (domainBounds [c5Child]) c5Req).2 = true ↔
      ∀ c : QuotaClass, c5Req c = -1 ∨
        max (domainChildLimitMin [c5Child] c) (domainChildUsageTotal [c5Child] c)
          ≤ c5Req c) ∧
    ((setQuotasApply none (domainBounds [c5Child]) c5Req).2 = false →
      (setQuotasApply none (domainBounds [c5Child]) c5Req).1 = none) :=
  set_quotas_domain_characterization [c5Child] c5Req none

/-- An error escaping `quota_create_reservations` in `__enter__` leaves
the reservation rows untouched (only limits may have been
materialized). -/
theorem managerEnter_error_state (m : QuotaManager)
    (defaults : List (QuotaClass × Int)) (st st1 : QuotaStore)
    (h : managerEnter m defaults st = (st1, Except.error QErr.projectQuotaFull)) :
    st1.reservations = st.reservations := by
  simp only [managerEnter] at h
  split at h
  · have h1 := congrArg Prod.fst h
    simp only at h1
    rw [← h1]
    split
    · rfl
    · rfl
  · have h2 := congrArg Prod.snd h
    simp at h2

/-- C2: when the reservation of an upload is rejected with
`ProjectQuotaFull`, the in-flight transfer is compensated: the bytes
already written to the backend are deleted, the image's status is
restored to queued, the rejection surfaces as the 403 response, and the
reservation rows — hence every scope's usage — are exactly as before the
attempt. -/
theorem upload_quota_rejected_compensation (c : UploadCase) (st0 st1 : QuotaStore)
    (imageId : Nat) (m : QuotaManager)
    (hsig : c.sigFail = false)
    (hact : quotaDriverActivate st0 imageId c.meta c.ctxTenant =
      QuotaAction.reserve m)
    (henter : managerEnter m c.defaults st0 =
      (st1, Except.error QErr.projectQuotaFull)) :
    (uploadRun c st0 imageId).result = UploadResult.httpForbidden ∧
    (uploadRun c st0 imageId).final.bytesStored = false ∧
    (uploadRun c st0 imageId).final.dbStatus = ImgStatus.queued ∧
    (uploadRun c st0 imageId).final.store.reservations = st0.reservations ∧
    ∀ sc cl, usage (uploadRun c st0 imageId).final.store sc cl =
      usage st0 sc cl := by
  have hres : st1.reservations = st0.reservations :=
    managerEnter_error_state m c.defaults st0 st1 henter
  have hfinal : (uploadRun c st0 imageId).final = ⟨st1, ImgStatus.queued, false⟩ := by
    simp [uploadRun, hsig, hact, henter]
  have hresult : (uploadRun c st0 imageId).result = UploadResult.httpForbidden := by
    simp [uploadRun, hsig, hact, henter]
  refine ⟨hresult, by rw [hfinal], by rw [hfinal], by rw [hfinal]; exact hres, ?_⟩
  intro sc cl
  rw [hfinal]
  show usage st1 sc cl = usage st0 sc cl
  unfold usage
  rw [hres]

theorem upload_quota_rejected_compensation_witness :
    (happyCase.sigFail = false ∧
     quotaDriverActivate c2RejectStore 1 happyCase.meta happyCase.ctxTenant =
       QuotaAction.reserve c2Manager ∧
     managerEnter c2Manager happyCase.defaults c2RejectStore =
       (c2RejectStore, Except.error QErr.projectQuotaFull)) ∧
    ((uploadRun happyCase c2RejectStore 1).result = UploadResult.httpForbidden ∧
     (uploadRun happyCase c2RejectStore 1).final.bytesStored = false ∧
     (uploadRun happyCase c2RejectStore 1).final.dbStatus = ImgStatus.queued ∧
     (uploadRun happyCase c2RejectStore 1).final.store.reservations =
       c2RejectStore.reservations ∧
     ∀ sc cl, usage (uploadRun happyCase c2RejectStore 1).final.store sc cl =
       usage c2RejectStore sc cl) :=
  ⟨⟨rfl, by decide, by rfl⟩,
   upload_quota_rejected_compensation happyCase c2RejectStore c2RejectStore 1
     c2Manager rfl (by decide) (by rfl)⟩

/-- C3 counterexample: in a successful size-5 private upload against a
fresh store, the trace contains a state (right after `image.set_data`)
in which the image's bytes are durably stored while no reservation
exists for the image — the reservation is created only afterwards, so
the claimed ordering (reserve before bytes) is violated. -/
theorem upload_bytes_before_reservation_counterexample :
    ¬ (∀ p ∈ (uploadRun happyCase freshStore 1).trace,
        p.2.bytesStored = true → quotaGetReservationsB p.2.store 1 = true) := by
  decide

/-- C3 amended: the order is the reverse of the claimed one: the bytes
are durably stored by `image.set_data` before `QuotaDriver.activate`
begins the reservation, so whenever the reservation-creation step occurs
in an upload trace, the image's bytes are already in the backend. -/
theorem upload_reserve_after_bytes (c : UploadCase) (st0 : QuotaStore)
    (imageId : Nat) :
    ((uploadRun c st0 imageId).trace.all
      (fun p => !(p.1 == Step.reserveCreated) || p.2.bytesStored)) = true := by
  unfold uploadRun
  repeat' split
  all_goals rfl

/-- C6 counterexample: an upload whose signature verification fails after
bytes reached the backend ends with the image killed but with the bytes
still stored (the handler performs no byte deletion) and the quota store
untouched, refuting the claim that the stored bytes are deleted. -/
theorem upload_signature_failure_counterexample :
    (uploadRun sigFailCase freshStore 1).result = UploadResult.httpBadRequest ∧
    (uploadRun sigFailCase freshStore 1).final.dbStatus = ImgStatus.killed ∧
    (uploadRun sigFailCase freshStore 1).final.bytesStored = true ∧
    (uploadRun sigFailCase freshStore 1).final.store = freshStore := by
  decide

/-- C6 amended: on a signature verification failure the image is moved to
the terminal killed status and the 400 response is raised, but the
handler deletes no bytes (whatever had reached the backend stays), and —
verification failing inside `set_data`, before the reservation bracket —
the quota store is untouched (no reservation existed, none is rolled
back). -/
theorem upload_signature_failure_behavior (c : UploadCase) (st0 : QuotaStore)
    (imageId : Nat) (hsig : c.sigFail = true) :
    (uploadRun c st0 imageId).result = UploadResult.httpBadRequest ∧
    (uploadRun c st0 imageId).final.dbStatus = ImgStatus.killed ∧
    (uploadRun c st0 imageId).final.bytesStored = c.sigBytes ∧
    (uploadRun c st0 imageId).final.store = st0 := by
  refine ⟨?_, ?_, ?_, ?_⟩ <;> simp [uploadRun, hsig]

theorem upload_signature_failure_behavior_witness :
    sigFailCase.sigFail = true ∧
    ((uploadRun sigFailCase freshStore 1).result = UploadResult.httpBadRequest ∧
     (uploadRun sigFailCase freshStore 1).final.dbStatus = ImgStatus.killed ∧
     (uploadRun sigFailCase freshStore 1).final.bytesStored = sigFailCase.sigBytes ∧
     (uploadRun sigFailCase freshStore 1).final.store = freshStore) :=
  ⟨rfl, upload_signature_failure_behavior sigFailCase freshStore 1 rfl⟩

end Glance
